import Mathlib

/-!
Shallow embedding of `latlon-vectors.js` (vector-based geodesy on a spherical
earth).  JavaScript numbers are modelled as real numbers; `Math.cos`, `Math.sin`,
`Math.sqrt` and `Math.atan2` are the exact real functions.  Where the script
produces `NaN` along a code path, the model uses `Option` (with `none` for a
NaN-poisoned value); where it throws, the model uses `Except JsErr`.

The script depends on `Vector3d` from `vector3d.js`, which is not part of the
repository snapshot; its operations are modelled from the spec (§4.1), each
marked `Modelled from the spec:` in its doc comment.
-/

noncomputable section

/-- JavaScript exception kinds thrown by code paths in `latlon-vectors.js`. -/
inductive JsErr
| typeError
| referenceError
deriving DecidableEq, Repr

/-- `Math.atan2(y, x)`: the angle of the point `(x, y)` in `(-π, π]`, with
`atan2(0, 0) = 0`; modelled as the complex argument of `x + y·i`. -/
def atan2 (y x : ℝ) : ℝ := Complex.arg (x + y * Complex.I)

/-- `Number.prototype.toRadians` (src line 299): `this * Math.PI / 180`. -/
def toRadians (x : ℝ) : ℝ := x * Real.pi / 180

/-- `Number.prototype.toDegrees` (src line 304): `this * 180 / Math.PI`. -/
def toDegrees (x : ℝ) : ℝ := x * 180 / Real.pi

/-- `x | 0`-free JavaScript truncation used by the `%` operator: rounding
toward zero. -/
def jsTrunc (x : ℝ) : ℝ := if 0 ≤ x then (⌊x⌋ : ℝ) else (⌈x⌉ : ℝ)

/-- The JavaScript remainder operator `a % b` for a nonzero modulus:
`a - b * trunc(a / b)` (the sign follows the dividend). -/
def jsMod (a b : ℝ) : ℝ := a - b * jsTrunc (a / b)

/-- `Vector3d`: a 3-D Cartesian vector with real components. -/
structure Vector3d where
  x : ℝ
  y : ℝ
  z : ℝ

/-- Modelled from the spec: `vector3d.js` is not in the snapshot.
§4.1 `plus(a,b)`: component-wise sum. -/
def Vector3d.plus (a b : Vector3d) : Vector3d :=
  ⟨a.x + b.x, a.y + b.y, a.z + b.z⟩

/-- Modelled from the spec: §4.1 `times(a,k)`: scalar multiply. -/
def Vector3d.times (a : Vector3d) (k : ℝ) : Vector3d :=
  ⟨a.x * k, a.y * k, a.z * k⟩

/-- Modelled from the spec: §4.1 `dot(a,b) = ax*bx + ay*by + az*bz`. -/
def Vector3d.dot (a b : Vector3d) : ℝ :=
  a.x * b.x + a.y * b.y + a.z * b.z

/-- Modelled from the spec: §4.1 `cross(a,b)`: standard 3-vector cross
product. -/
def Vector3d.cross (a b : Vector3d) : Vector3d :=
  ⟨a.y * b.z - a.z * b.y, a.z * b.x - a.x * b.z, a.x * b.y - a.y * b.x⟩

/-- Modelled from the spec: §4.1 `length(a) = sqrt(dot(a,a))`. -/
def Vector3d.length (a : Vector3d) : ℝ :=
  Real.sqrt (a.dot a)

/-- Modelled from the spec: §4.1 `unit(a)`: `a` divided by `length(a)`;
"fails/undefined when `length(a) == 0` (caller must guard; no silent
fallback)" — the failure is modelled as `none`. -/
def Vector3d.unit (a : Vector3d) : Option Vector3d :=
  if a.length = 0 then none
  else some ⟨a.x / a.length, a.y / a.length, a.z / a.length⟩

/-- Modelled from the spec: §4.1
`angleTo(a,b) = atan2(length(cross(a,b)), dot(a,b))`. -/
def Vector3d.angleTo (a b : Vector3d) : ℝ :=
  atan2 (a.cross b).length (a.dot b)

/-- The negation of a vector (spec glossary: antipodal points have vectors
that are exact negatives). -/
def Vector3d.neg (a : Vector3d) : Vector3d :=
  ⟨-a.x, -a.y, -a.z⟩

/-- `LatLonV` (src lines 24-30): latitude and longitude in degrees plus an
earth radius.  The constructor itself performs no validation; the default
radius `6371` is applied when the argument is omitted. -/
structure LatLonV where
  lat : ℝ
  lon : ℝ
  radius : ℝ

/-- `LatLonV.prototype.toVector` (src lines 38-48): the n-vector
`(cosφ·cosλ, cosφ·sinλ, sinφ)` of the point, `φ`/`λ` the latitude and
longitude in radians. -/
def LatLonV.toVector (self : LatLonV) : Vector3d :=
  let φ := toRadians self.lat
  let lam := toRadians self.lon
  ⟨Real.cos φ * Real.cos lam, Real.cos φ * Real.sin lam, Real.sin φ⟩

/-- `Vector3d.prototype.toLatLon` (src lines 57-62):
`φ = atan2(z, sqrt(x²+y²))`, `λ = atan2(y, x)`, converted to degrees; the
result is built by `new LatLonV(φ, λ)` with the radius argument omitted, so
the radius field is the default `6371`. -/
def Vector3d.toLatLon (v : Vector3d) : LatLonV :=
  ⟨toDegrees (atan2 v.z (Real.sqrt (v.x * v.x + v.y * v.y))),
   toDegrees (atan2 v.y v.x),
   6371⟩

/-- `LatLonV.prototype.greatCircle` (src lines 71-81): normal of the
great-circle plane obtained by heading on `bearing` from the point. -/
def LatLonV.greatCircle (self : LatLonV) (bearing : ℝ) : Vector3d :=
  let φ := toRadians self.lat
  let lam := toRadians self.lon
  let θ := toRadians bearing
  ⟨Real.sin lam * Real.cos θ - Real.sin φ * Real.cos lam * Real.sin θ,
   -Real.cos lam * Real.cos θ - Real.sin φ * Real.sin lam * Real.sin θ,
   Real.cos φ * Real.sin θ⟩

/-- `LatLonV.prototype.distanceTo` (src lines 90-98):
`angleTo(v1, v2) * this.radius`. -/
def LatLonV.distanceTo (self point : LatLonV) : ℝ :=
  self.toVector.angleTo point.toVector * self.radius

/-- `LatLonV.prototype.bearingTo` (src lines 107-125). -/
def LatLonV.bearingTo (self point : LatLonV) : ℝ :=
  let p1 := self.toVector
  let p2 := point.toVector
  let northPole : Vector3d := ⟨0, 0, 1⟩
  let c1 := p1.cross p2
  let c2 := p1.cross northPole
  let sinθ :=
    if (c1.cross c2).dot p1 < 0 then -(c1.cross c2).length else (c1.cross c2).length
  let cosθ := c1.dot c2
  let bearing := toDegrees (atan2 sinθ cosθ)
  jsMod (bearing + 360) 360

/-- `LatLonV.prototype.midpointTo` (src lines 134-141):
`unit(v1 + v2)` lifted back to a point (`none` when `unit` fails on the
zero vector). -/
def LatLonV.midpointTo (self point : LatLonV) : Option LatLonV :=
  ((self.toVector.plus point.toVector).unit).map Vector3d.toLatLon

/-- `LatLonV.prototype.destinationPoint` (src lines 152-166). -/
def LatLonV.destinationPoint (self : LatLonV) (bearing dist : ℝ) : Option LatLonV :=
  let δ := dist / self.radius
  let c := self.greatCircle bearing
  let p1 := self.toVector
  let x := p1.times (Real.cos δ)
  let y := (c.cross p1).times (Real.sin δ)
  ((x.plus y).unit).map Vector3d.toLatLon

/-- A path argument of `intersection` / `crossTrackDistanceTo`: either an
end point (a `LatLonV` object) or a numeric initial bearing. -/
inductive PathSpec
| point (p : LatLonV)
| bearing (b : ℝ)

/-- The JavaScript `typeof` operator on a path argument: a `LatLonV` object
has `typeof` `"object"` and a numeric bearing has `typeof` `"number"`;
`typeof` never yields a constructor name such as `"LatLonV"`. -/
def jsTypeof : PathSpec → String
| .point _ => "object"
| .bearing _ => "number"

/-- JavaScript `Number()` coercion of a path argument: a number is itself; a
`LatLonV` object converts via its `toString` (a formatted
degrees-minutes-seconds string), which is not numeric, so the result is
`NaN`, modelled as `none`. -/
def jsToNumber : PathSpec → Option ℝ
| .point _ => none
| .bearing b => some b

/-- The plane normal computed for one path inside `LatLonV.intersection`
(src lines 179-188): the source tests `typeof pathbrngEnd == 'LatLonV'`,
which is false for every value (`typeof` never returns `"LatLonV"`), so the
endpoint branch is unreachable and the argument is always coerced with
`Number()` and passed to `greatCircle`.  (Were the endpoint branch reached,
`path1start.cross(...)` would throw, `LatLonV` having no `cross` method;
`none` stands for that unreachable case as well as for the NaN vector
`greatCircle(NaN)` produced when an endpoint object is coerced to `NaN`.) -/
def pathNormal (start : LatLonV) (pathBrngEnd : PathSpec) : Option Vector3d :=
  if jsTypeof pathBrngEnd = "LatLonV" then
    none
  else
    (jsToNumber pathBrngEnd).map start.greatCircle

/-- `LatLonV.intersection` (src lines 178-193): the two plane normals as
computed by the source's branches, intersected by `cross(c1, c2)` and
lifted with `toLatLon`; `none` models a NaN-poisoned result. -/
def LatLonV.intersection (path1start : LatLonV) (path1brngEnd : PathSpec)
    (path2start : LatLonV) (path2brngEnd : PathSpec) : Option LatLonV :=
  match pathNormal path1start path1brngEnd, pathNormal path2start path2brngEnd with
  | some c1, some c2 => some ((c1.cross c2).toLatLon)
  | _, _ => none

/-- `LatLonV.prototype.crossTrackDistanceTo` (src lines 203-218): the source
tests `typeof pathbrngEnd` — a misspelling of the parameter `pathBrngEnd` —
and `typeof` of an undeclared identifier is `"undefined"`, never
`"LatLonV"`, so the endpoint branch is dead and the argument is always
coerced with `Number()` (an endpoint object becomes `NaN`, propagated as
`none`). -/
def LatLonV.crossTrackDistanceTo (self pathStart : LatLonV)
    (pathBrngEnd : PathSpec) : Option ℝ :=
  if ("undefined" : String) = "LatLonV" then
    none
  else
    (jsToNumber pathBrngEnd).map fun pathBrng =>
      (Real.pi / 2 - self.toVector.angleTo (pathStart.greatCircle pathBrng)) * self.radius

/-- `LatLonV.prototype.equals` (src lines 275-278): the body reads
`points.lat`, but `points` is an undeclared identifier (the parameter is
named `point`), so every call throws a `ReferenceError` before comparing
anything. -/
def LatLonV.equalsCall (_self _point : LatLonV) : Except JsErr Bool :=
  .error .referenceError

/-- `LatLonV.prototype.enclosedBy` (src lines 228-248), with the caller's
`points` array threaded through explicitly so that mutation (the
`points.pop()` on line 230) is visible in the result.  On an empty array
`points[0]` is `undefined` and `undefined.equals` throws a `TypeError`; on a
non-empty array the `equals` call itself throws a `ReferenceError` (see
`LatLonV.equalsCall`), so the pop and everything after it are unreachable.
In the unreachable continuation: `side` (line 235) evaluates to `NaN`
without throwing, and `turn = Math.sign(p1.cross.p2)` (line 237) throws a
`TypeError` — `p1.cross` is `undefined` on a `LatLonV`, and reading `.p2`
on `undefined` throws — before the loop can run. -/
def LatLonV.enclosedBy (_self : LatLonV) (points : List LatLonV) :
    Except JsErr Bool × List LatLonV :=
  match points with
  | [] => (.error .typeError, [])
  | p0 :: rest =>
    match LatLonV.equalsCall p0 ((p0 :: rest).getLast (List.cons_ne_nil p0 rest)) with
    | .error e => (.error e, p0 :: rest)
    | .ok eq =>
      let pts := if eq then (p0 :: rest).dropLast else p0 :: rest
      (.error .typeError, pts)

/-- `m.plus(points[p])` inside `LatLonV.meanOf` (src line 262): `m` is a
`LatLonV`, whose prototype defines no `plus` method, so the property access
yields `undefined` and the call throws a `TypeError`. -/
def LatLonV.plusCall (_m _p : LatLonV) : Except JsErr LatLonV :=
  .error .typeError

/-- `m.unit()` inside `LatLonV.meanOf` (src line 265): `LatLonV` has no
`unit` method either, so the call throws a `TypeError`. -/
def LatLonV.unitCall (_m : LatLonV) : Except JsErr LatLonV :=
  .error .typeError

/-- `LatLonV.meanOf` (src lines 258-266): starts from `new LatLonV(0,0,0)`
and folds `m = m.plus(points[p])` over the array, then returns `m.unit()`;
both method calls throw (see `LatLonV.plusCall`, `LatLonV.unitCall`). -/
def LatLonV.meanOf (points : List LatLonV) : Except JsErr LatLonV := do
  let m ← points.foldlM (fun m p => LatLonV.plusCall m p) ⟨0, 0, 0⟩
  LatLonV.unitCall m

/-!
Extended-number model.  To settle the claim about rejection of non-finite
input, JavaScript numbers are modelled as an extension of the reals with
`NaN` and the two infinities, and the constructor and `toVector` are
re-traced over that carrier with an explicit error channel, so that an
absence of rejection is visible in the result.
-/

/-- A JavaScript number: a finite real, `NaN`, `Infinity` or `-Infinity`. -/
inductive JsNum
| num (x : ℝ)
| nan
| inf
| ninf

/-- IEEE multiplication on JavaScript numbers. -/
def jsMul : JsNum → JsNum → JsNum
| .nan, _ => .nan
| _, .nan => .nan
| .num a, .num b => .num (a * b)
| .inf, .num b => if b = 0 then .nan else if 0 < b then .inf else .ninf
| .ninf, .num b => if b = 0 then .nan else if 0 < b then .ninf else .inf
| .num a, .inf => if a = 0 then .nan else if 0 < a then .inf else .ninf
| .num a, .ninf => if a = 0 then .nan else if 0 < a then .ninf else .inf
| .inf, .inf => .inf
| .inf, .ninf => .ninf
| .ninf, .inf => .ninf
| .ninf, .ninf => .inf

/-- `Math.cos` on JavaScript numbers: `NaN` on every non-finite argument. -/
def jsCos : JsNum → JsNum
| .num x => .num (Real.cos x)
| _ => .nan

/-- `Math.sin` on JavaScript numbers: `NaN` on every non-finite argument. -/
def jsSin : JsNum → JsNum
| .num x => .num (Real.sin x)
| _ => .nan

/-- `toRadians` (`this * Math.PI / 180`) on JavaScript numbers: `π/180` is
finite and positive, so the multiplication and division preserve `NaN` and
both infinities. -/
def jsToRad : JsNum → JsNum
| .num x => .num (x * Real.pi / 180)
| .nan => .nan
| .inf => .inf
| .ninf => .ninf

/-- A `LatLonV` whose stored fields are JavaScript numbers. -/
structure LatLonVE where
  lat : JsNum
  lon : JsNum
  radius : JsNum

/-- The `LatLonV` constructor (src lines 24-30) over JavaScript numbers:
`Number()` of a number is the number itself, the radius defaults to `6371`
when omitted, and no finiteness check of any kind is performed — the error
channel is never used. -/
def latLonVE (lat lon : JsNum) (radius : Option JsNum) : Except JsErr LatLonVE :=
  .ok ⟨lat, lon, radius.getD (.num 6371)⟩

/-- An n-vector whose components are JavaScript numbers. -/
structure Vector3dE where
  x : JsNum
  y : JsNum
  z : JsNum

/-- `toVector` (src lines 38-48) over JavaScript numbers: the trigonometric
functions run unconditionally on whatever was stored, turning non-finite
coordinates into `NaN` components; nothing is rejected. -/
def toVectorE (p : LatLonVE) : Except JsErr Vector3dE :=
  let φ := jsToRad p.lat
  let lam := jsToRad p.lon
  .ok ⟨jsMul (jsCos φ) (jsCos lam), jsMul (jsCos φ) (jsSin lam), jsSin φ⟩

/-! ### Helper lemmas -/

/-- The n-vector of the point 0°N 0°E is `(1, 0, 0)`. -/
theorem toVector_e00 (r : ℝ) : (LatLonV.mk 0 0 r).toVector = ⟨1, 0, 0⟩ := by
  simp [LatLonV.toVector, toRadians]

/-- The n-vector of the point 0°N 90°E is `(0, 1, 0)`. -/
theorem toVector_e090 (r : ℝ) : (LatLonV.mk 0 90 r).toVector = ⟨0, 1, 0⟩ := by
  have h : toRadians 90 = Real.pi / 2 := by unfold toRadians; ring
  have h0 : toRadians 0 = 0 := by unfold toRadians; ring
  simp [LatLonV.toVector, h, h0]

/-- The n-vector of the point 0°N 180°E is `(-1, 0, 0)`. -/
theorem toVector_e0180 (r : ℝ) : (LatLonV.mk 0 180 r).toVector = ⟨-1, 0, 0⟩ := by
  have h : toRadians 180 = Real.pi := by unfold toRadians; ring
  have h0 : toRadians 0 = 0 := by unfold toRadians; ring
  simp [LatLonV.toVector, h, h0]

/-- Converting a vector to a point always yields the default radius. -/
theorem toLatLon_radius (v : Vector3d) : v.toLatLon.radius = 6371 := rfl

/-- `angleTo` is symmetric in its two vectors. -/
theorem Vector3d.angleTo_comm (a b : Vector3d) : a.angleTo b = b.angleTo a := by
  unfold Vector3d.angleTo
  have hL : (a.cross b).length = (b.cross a).length := by
    unfold Vector3d.length Vector3d.cross Vector3d.dot
    congr 1
    ring
  have hD : a.dot b = b.dot a := by unfold Vector3d.dot; ring
  rw [hL, hD]

/-- The zero vector has length zero. -/
theorem length_zero_vec : (Vector3d.mk 0 0 0).length = 0 := by
  simp [Vector3d.length, Vector3d.dot]

/-- The cross product of a vector with itself is the zero vector. -/
theorem Vector3d.cross_self_zero (v : Vector3d) : v.cross v = ⟨0, 0, 0⟩ := by
  simp only [Vector3d.cross, Vector3d.mk.injEq]
  refine ⟨by ring, by ring, by ring⟩

/-- The zero vector crossed with anything is the zero vector. -/
theorem Vector3d.zero_cross_zero (w : Vector3d) : (Vector3d.mk 0 0 0).cross w = ⟨0, 0, 0⟩ := by
  simp only [Vector3d.cross, Vector3d.mk.injEq]
  refine ⟨by ring, by ring, by ring⟩

/-- The zero vector dotted with anything is zero. -/
theorem Vector3d.zero_dot_zero (w : Vector3d) : (Vector3d.mk 0 0 0).dot w = 0 := by
  simp [Vector3d.dot]

/-- `atan2(0, 0) = 0`, as for `Math.atan2`. -/
theorem atan2_zero_zero : atan2 0 0 = 0 := by
  unfold atan2
  simp

/-! ### Claim theorems -/

/-- Claim C2: false of the code — the source guards the endpoint branch with
`typeof path1brngEnd == 'LatLonV'`, which no value satisfies, so a path given
by an endpoint is coerced with `Number()` to `NaN` and the result is
NaN-poisoned (`none`) instead of using `cross(start, end)`; the same
misspelled-dispatch applies in `crossTrackDistanceTo`. -/
theorem intersection_endpoint_branch_nan :
    LatLonV.intersection ⟨51, 0, 6371⟩ (.point ⟨49, 2, 6371⟩) ⟨50, 1, 6371⟩ (.bearing 90)
      = none := rfl

/-- Claim C3: false of the code — `enclosedBy` on a point and a convex
triangle throws a `ReferenceError` (via the broken `equals`) before any
cross-track computation, leaving the array untouched; and the per-edge test
the source would run uses the same vertex twice
(`crossTrackDistanceTo(p2, p2)`), whose endpoint argument is coerced to
`NaN`, rather than the edge `(vertex[i], vertex[i+1 mod n])`. -/
theorem enclosedBy_throws_on_triangle :
    (LatLonV.mk 1 1 6371).enclosedBy
        [⟨0, 0, 6371⟩, ⟨0, 2, 6371⟩, ⟨2, 0, 6371⟩]
      = (.error .referenceError, [⟨0, 0, 6371⟩, ⟨0, 2, 6371⟩, ⟨2, 0, 6371⟩]) ∧
    (LatLonV.mk 1 1 6371).crossTrackDistanceTo ⟨0, 2, 6371⟩ (.point ⟨0, 2, 6371⟩)
      = none :=
  ⟨rfl, rfl⟩

/-- Claim C7: false of the code — `meanOf` never forms n-vectors at all: it
calls `m.plus(...)` (and finally `m.unit()`) on `LatLonV` values, which have
no such methods, so every call throws a `TypeError` instead of returning
`unit(Σ toVector(p))`. -/
theorem meanOf_typeError (points : List LatLonV) :
    LatLonV.meanOf points = .error .typeError := by
  cases points <;> rfl

/-- Claim C8: false of the code at a concrete input — the constructor stores
`NaN` without complaint and `toVector` then runs the vector math on it,
yielding a `NaN` vector; no `InvalidArgument` rejection happens. -/
theorem latLonV_accepts_nonfinite :
    latLonVE .nan (.num 0) none = .ok ⟨.nan, .num 0, .num 6371⟩ ∧
    toVectorE ⟨.nan, .num 0, .num 6371⟩ = .ok ⟨.nan, .nan, .nan⟩ :=
  ⟨rfl, rfl⟩

/-- Claim C8 (amended): the conversion boundary rejects nothing — the
constructor and `toVector` succeed on every input, finite or not, and
non-finite coordinates simply propagate as `NaN`. -/
theorem latLonV_no_rejection :
    (∀ lat lon radius, ∃ p, latLonVE lat lon radius = .ok p) ∧
    (∀ p, ∃ v, toVectorE p = .ok v) :=
  ⟨fun _ _ _ => ⟨_, rfl⟩, fun _ => ⟨_, rfl⟩⟩

/-- Claim C9: every call leaves its arguments unchanged; in particular
`enclosedBy` — the only operation whose source contains an array mutation,
the conditional `points.pop()` — returns with the caller's array exactly as
it was passed (the guarding `equals` call throws before the pop can run). -/
theorem enclosedBy_preserves_points (self : LatLonV) (points : List LatLonV) :
    (self.enclosedBy points).2 = points := by
  cases points <;> rfl

/-- The angle between the unit vectors of 0°N 0°E and 0°N 90°E is `π/2`. -/
theorem angle_e1_e2 : Vector3d.angleTo ⟨1, 0, 0⟩ ⟨0, 1, 0⟩ = Real.pi / 2 := by
  unfold Vector3d.angleTo atan2
  norm_num [Vector3d.cross, Vector3d.dot, Vector3d.length, Real.sqrt_one, Complex.arg_I]

/-- The angle between the unit vectors of 0°N 90°E and 0°N 0°E is `π/2`. -/
theorem angle_e2_e1 : Vector3d.angleTo ⟨0, 1, 0⟩ ⟨1, 0, 0⟩ = Real.pi / 2 := by
  unfold Vector3d.angleTo atan2
  norm_num [Vector3d.cross, Vector3d.dot, Vector3d.length, Real.sqrt_one, Complex.arg_I]

/-- Claim C4: false as stated when the two points carry different radii —
the distance is scaled by the receiver's radius only. -/
theorem distanceTo_not_symm :
    (LatLonV.mk 0 0 1).distanceTo (LatLonV.mk 0 90 2)
      ≠ (LatLonV.mk 0 90 2).distanceTo (LatLonV.mk 0 0 1) := by
  unfold LatLonV.distanceTo
  rw [toVector_e00, toVector_e090, angle_e1_e2, angle_e2_e1]
  show Real.pi / 2 * 1 ≠ Real.pi / 2 * 2
  intro h
  nlinarith [Real.pi_pos]

/-- Claim C4 (amended): `distanceTo` is symmetric for points with equal
radii, because the angle between the two n-vectors is symmetric. -/
theorem distanceTo_symm (a b : LatLonV) (h : a.radius = b.radius) :
    a.distanceTo b = b.distanceTo a := by
  unfold LatLonV.distanceTo
  rw [Vector3d.angleTo_comm, h]

/-- Witness for the amended claim C4 at two concrete equal-radius points. -/
theorem distanceTo_symm_witness :
    (LatLonV.mk 10 20 6371).radius = (LatLonV.mk 30 40 6371).radius ∧
    (LatLonV.mk 10 20 6371).distanceTo (LatLonV.mk 30 40 6371)
      = (LatLonV.mk 30 40 6371).distanceTo (LatLonV.mk 10 20 6371) :=
  ⟨rfl, distanceTo_symm _ _ rfl⟩

/-- `bearingTo` of a point to itself: the cross product `c1` is the zero
vector, so `sinθ = cosθ = 0`, `atan2(0,0) = 0`, and the normalised bearing
is `0` — a finite value, with no error path anywhere in the computation. -/
theorem bearingTo_self_aux (p : LatLonV) : p.bearingTo p = 0 := by
  have hc : p.toVector.cross p.toVector = ⟨0, 0, 0⟩ := Vector3d.cross_self_zero _
  simp only [LatLonV.bearingTo, hc, Vector3d.zero_cross_zero, Vector3d.zero_dot_zero,
    length_zero_vec, lt_self_iff_false, if_false]
  rw [atan2_zero_zero]
  unfold toDegrees jsMod jsTrunc
  norm_num

/-- Claim C5: false of the code at a concrete input — `bearingTo(p, p)`
returns the finite bearing `0`; the computation is pure arithmetic with no
error reporting of any kind. -/
theorem bearingTo_self_concrete :
    (LatLonV.mk 50 10 6371).bearingTo (LatLonV.mk 50 10 6371) = 0 :=
  bearingTo_self_aux _

/-- Claim C5 (amended): for every point `p`, `bearingTo(p, p)` returns the
deterministic fallback value `0` (from `atan2(0, 0) = 0`) rather than
reporting a degenerate-input error. -/
theorem bearingTo_self (p : LatLonV) : p.bearingTo p = 0 :=
  bearingTo_self_aux p

/-- Claim C6: for exactly antipodal points (n-vectors that are exact
negatives) the summed vector is zero, `unit` fails on it, and `midpointTo`
surfaces that failure to the caller instead of producing a point. -/
theorem midpointTo_antipodal (p q : LatLonV) (h : q.toVector = p.toVector.neg) :
    p.midpointTo q = none := by
  unfold LatLonV.midpointTo
  have hsum : p.toVector.plus q.toVector = ⟨0, 0, 0⟩ := by
    rw [h]
    simp only [Vector3d.plus, Vector3d.neg, Vector3d.mk.injEq]
    refine ⟨by ring, by ring, by ring⟩
  rw [hsum]
  unfold Vector3d.unit
  rw [if_pos length_zero_vec]
  rfl

/-- Witness for claim C6 at the concrete antipodal pair 0°N 0°E / 0°N 180°E. -/
theorem midpointTo_antipodal_witness :
    (LatLonV.mk 0 0 6371).midpointTo (LatLonV.mk 0 180 6371) = none := by
  apply midpointTo_antipodal
  rw [toVector_e00, toVector_e0180]
  simp [Vector3d.neg]

/-- Claim C10: every operation that lifts a vector back to a point through
`toLatLon` — `midpointTo`, `destinationPoint` and `intersection` — yields a
point whose radius field is the default `6371`, whatever the radii of the
inputs were. -/
theorem lifted_points_default_radius :
    (∀ p q m, LatLonV.midpointTo p q = some m → m.radius = 6371) ∧
    (∀ p (bearing dist : ℝ) m,
      LatLonV.destinationPoint p bearing dist = some m → m.radius = 6371) ∧
    (∀ p1 s1 p2 s2 m,
      LatLonV.intersection p1 s1 p2 s2 = some m → m.radius = 6371) := by
  refine ⟨?_, ?_, ?_⟩
  · intro p q m hm
    unfold LatLonV.midpointTo at hm
    obtain ⟨v, _, hv⟩ := Option.map_eq_some'.mp hm
    rw [← hv]
    rfl
  · intro p bearing dist m hm
    unfold LatLonV.destinationPoint at hm
    obtain ⟨v, _, hv⟩ := Option.map_eq_some'.mp hm
    rw [← hv]
    rfl
  · intro p1 s1 p2 s2 m hm
    unfold LatLonV.intersection at hm
    revert hm
    cases pathNormal p1 s1 <;> cases pathNormal p2 s2 <;> intro hm <;>
      simp only [Option.some.injEq, reduceCtorEq] at hm
    rw [← hm]
    rfl

/-- Witness for claim C10: a concrete `midpointTo` call produces a point,
and its radius is `6371`. -/
theorem lifted_points_default_radius_witness :
    ∃ m, (LatLonV.mk 0 0 6371).midpointTo (LatLonV.mk 0 0 6371) = some m ∧
      m.radius = 6371 := by
  have hm : (LatLonV.mk 0 0 6371).midpointTo (LatLonV.mk 0 0 6371)
      = some ((Vector3d.mk 1 0 0).toLatLon) := by
    unfold LatLonV.midpointTo
    rw [toVector_e00]
    have hsum : (Vector3d.mk 1 0 0).plus ⟨1, 0, 0⟩ = ⟨2, 0, 0⟩ := by
      simp only [Vector3d.plus, Vector3d.mk.injEq]
      norm_num
    rw [hsum]
    have hlen : (Vector3d.mk 2 0 0).length = 2 := by
      unfold Vector3d.length Vector3d.dot
      rw [show (2:ℝ) * 2 + 0 * 0 + 0 * 0 = 2 ^ 2 by norm_num]
      exact Real.sqrt_sq (by norm_num)
    unfold Vector3d.unit
    rw [hlen, if_neg (by norm_num : (2:ℝ) ≠ 0)]
    norm_num
  exact ⟨_, hm, lifted_points_default_radius.1 _ _ _ hm⟩

/-- Degrees → radians → degrees is the identity. -/
theorem toDegrees_toRadians (t : ℝ) : toDegrees (toRadians t) = t := by
  unfold toDegrees toRadians
  field_simp

/-- `atan2(sin t, cos t) = t` on `(-π, π]`. -/
theorem atan2_sin_cos (t : ℝ) (h1 : -Real.pi < t) (h2 : t ≤ Real.pi) :
    atan2 (Real.sin t) (Real.cos t) = t := by
  unfold atan2
  rw [Complex.ofReal_cos, Complex.ofReal_sin]
  exact Complex.arg_cos_add_sin_mul_I ⟨h1, h2⟩

/-- The exact round trip: for `lat ∈ (-90, 90)` and `lon ∈ (-180, 180]`,
`toLatLon ∘ toVector` returns exactly `(lat, lon)` (with the default
radius). -/
theorem toVector_toLatLon_exact (lat lon radius : ℝ)
    (h1 : -90 < lat) (h2 : lat < 90) (h3 : -180 < lon) (h4 : lon ≤ 180) :
    (LatLonV.mk lat lon radius).toVector.toLatLon = ⟨lat, lon, 6371⟩ := by
  have hπ := Real.pi_pos
  have hφ1 : -(Real.pi / 2) < toRadians lat := by
    unfold toRadians
    nlinarith [mul_pos (by linarith : (0:ℝ) < lat + 90) Real.pi_pos]
  have hφ2 : toRadians lat < Real.pi / 2 := by
    unfold toRadians
    nlinarith [mul_pos (by linarith : (0:ℝ) < 90 - lat) Real.pi_pos]
  have hcos : 0 < Real.cos (toRadians lat) :=
    Real.cos_pos_of_mem_Ioo ⟨hφ1, hφ2⟩
  have hlam1 : -Real.pi < toRadians lon := by
    unfold toRadians
    nlinarith [mul_pos (by linarith : (0:ℝ) < lon + 180) Real.pi_pos]
  have hlam2 : toRadians lon ≤ Real.pi := by
    unfold toRadians
    nlinarith [mul_nonneg (by linarith : (0:ℝ) ≤ 180 - lon) Real.pi_pos.le]
  set φ := toRadians lat with hφ
  set lam := toRadians lon with hlam
  unfold LatLonV.toVector Vector3d.toLatLon
  simp only
  have hsq : Real.sqrt (Real.cos φ * Real.cos lam * (Real.cos φ * Real.cos lam) +
      Real.cos φ * Real.sin lam * (Real.cos φ * Real.sin lam)) = Real.cos φ := by
    have hs := Real.sin_sq_add_cos_sq lam
    rw [show Real.cos φ * Real.cos lam * (Real.cos φ * Real.cos lam) +
        Real.cos φ * Real.sin lam * (Real.cos φ * Real.sin lam) = Real.cos φ ^ 2 by
      linear_combination Real.cos φ ^ 2 * hs]
    exact Real.sqrt_sq hcos.le
  rw [hsq]
  have hlat' : atan2 (Real.sin φ) (Real.cos φ) = φ :=
    atan2_sin_cos φ (by linarith) (by linarith)
  have hlon' : atan2 (Real.cos φ * Real.sin lam) (Real.cos φ * Real.cos lam) = lam := by
    unfold atan2
    have hfac : ((Real.cos φ * Real.cos lam : ℝ) : ℂ) +
        ((Real.cos φ * Real.sin lam : ℝ) : ℂ) * Complex.I =
        (Real.cos φ : ℂ) * (Complex.cos lam + Complex.sin lam * Complex.I) := by
      rw [← Complex.ofReal_cos, ← Complex.ofReal_sin]
      push_cast
      ring
    rw [hfac, Complex.arg_real_mul _ hcos]
    exact Complex.arg_cos_add_sin_mul_I ⟨hlam1, hlam2⟩
  rw [hlat', hlon', hφ, hlam, toDegrees_toRadians, toDegrees_toRadians]

/-- Claim C1 (amended): for `lat ∈ (-90, 90)` and `lon ∈ (-180, 180]`, the
round trip `toLatLon(toVector(lat, lon))` reproduces `(lat, lon)` within
`1e-9` degrees (in the real-number model it is exact). -/
theorem toVector_toLatLon_roundTrip (lat lon radius : ℝ)
    (h1 : -90 < lat) (h2 : lat < 90) (h3 : -180 < lon) (h4 : lon ≤ 180) :
    |((LatLonV.mk lat lon radius).toVector.toLatLon).lat - lat| ≤ 1e-9 ∧
    |((LatLonV.mk lat lon radius).toVector.toLatLon).lon - lon| ≤ 1e-9 := by
  rw [toVector_toLatLon_exact lat lon radius h1 h2 h3 h4]
  norm_num

/-- Witness for the amended claim C1 at the concrete point (10°N, 20°E). -/
theorem toVector_toLatLon_roundTrip_witness :
    |((LatLonV.mk 10 20 6371).toVector.toLatLon).lat - 10| ≤ 1e-9 ∧
    |((LatLonV.mk 10 20 6371).toVector.toLatLon).lon - 20| ≤ 1e-9 :=
  toVector_toLatLon_roundTrip 10 20 6371 (by norm_num) (by norm_num)
    (by norm_num) (by norm_num)

/-- Claim C1: false as stated for longitudes outside `(-180, 180]` — at
`(0, 270)` the round trip returns longitude `-90`, which differs from `270`
by `360` degrees. -/
theorem toVector_toLatLon_lon270 :
    ¬ |((LatLonV.mk 0 270 6371).toVector.toLatLon).lon - 270| ≤ 1e-9 := by
  have hv : (LatLonV.mk 0 270 6371).toVector = ⟨0, -1, 0⟩ := by
    have h : toRadians 270 = Real.pi + Real.pi / 2 := by unfold toRadians; ring
    have h0 : toRadians 0 = 0 := by unfold toRadians; ring
    unfold LatLonV.toVector
    simp only [h, h0]
    norm_num [Real.cos_add, Real.sin_add]
  have hlon : ((Vector3d.mk 0 (-1) 0).toLatLon).lon = -90 := by
    unfold Vector3d.toLatLon toDegrees atan2
    simp only
    have hni : ((0:ℝ) : ℂ) + ((-1:ℝ) : ℂ) * Complex.I = -Complex.I := by
      push_cast
      ring
    rw [hni, Complex.arg_neg_I]
    field_simp
    ring
  rw [hv, hlon]
  norm_num

end
